import Mathlib

/-!
Verification of the Hearthlink process supervisor (`src-tauri/src/main.rs`).

The supervisor keeps two maps keyed by service name — a process registry
(`processes: HashMap<String, Child>`) and a status table
(`services: HashMap<String, ServiceStatus>`) — plus a startup timestamp, a
port profile and a `shutdown_in_progress` flag.  We embed the state as
association lists with HashMap semantics (unique keys, `insert` replaces),
embed each operation of `ServiceManager` as a pure state-transformer, and
record externally visible process actions (termination requests, force
kills, spawns) as an explicit event trace.  External effects (the OS clock,
port binding, process spawning, the Python probe, process-exit behaviour)
are supplied by an `Env` record of oracles.
-/

namespace Hearthlink

/-- Association-list map with `HashMap` semantics: lookups find the unique
binding, `insert` replaces any previous binding, `erase` removes it. -/
def StrMap (α : Type) : Type := List (String × α)

namespace StrMap

/-- The empty map. -/
def empty {α : Type} : StrMap α := []

/-- Lookup: first (hence, with unique keys, only) binding of `k`. -/
def get? {α : Type} (m : StrMap α) (k : String) : Option α :=
  match m with
  | [] => none
  | (k', v) :: t => if k' = k then some v else get? t k

/-- Remove every binding of `k` (models `HashMap::remove`). -/
def erase {α : Type} (m : StrMap α) (k : String) : StrMap α :=
  match m with
  | [] => []
  | (k', v) :: t => if k' = k then erase t k else (k', v) :: erase t k

/-- Insert, replacing any previous binding (models `HashMap::insert`). -/
def insert {α : Type} (m : StrMap α) (k : String) (v : α) : StrMap α :=
  (k, v) :: m.erase k

/-- Update the binding of `k` in place when present
(models `HashMap::get_mut` followed by field mutation). -/
def modify {α : Type} (m : StrMap α) (k : String) (f : α → α) : StrMap α :=
  m.map (fun p => if p.1 = k then (p.1, f p.2) else p)

/-- Update every value in the map (models `iter_mut`). -/
def mapValues {α : Type} (m : StrMap α) (f : α → α) : StrMap α :=
  m.map (fun p => (p.1, f p.2))

theorem get?_erase_ne {α : Type} (m : StrMap α) (k k' : String) (h : k' ≠ k) :
    (m.erase k).get? k' = m.get? k' := by
  induction m with
  | nil => rfl
  | cons p t ih =>
    obtain ⟨a, v⟩ := p
    by_cases ha : a = k
    · subst ha
      have ha' : a ≠ k' := fun hak => h hak.symm
      simp [erase, get?, ha', ih]
    · by_cases ha' : a = k'
      · subst ha'
        simp [erase, get?, ha]
      · simp [erase, get?, ha, ha', ih]

theorem get?_insert_self {α : Type} (m : StrMap α) (k : String) (v : α) :
    (m.insert k v).get? k = some v := by
  simp [insert, get?]

theorem modify_cons_eq {α : Type} (t : List (String × α)) (a : String) (v : α)
    (k : String) (f : α → α) (h : a = k) :
    modify ((a, v) :: t) k f = (a, f v) :: modify t k f := by
  simp [modify, h]

theorem modify_cons_ne {α : Type} (t : List (String × α)) (a : String) (v : α)
    (k : String) (f : α → α) (h : ¬ a = k) :
    modify ((a, v) :: t) k f = (a, v) :: modify t k f := by
  simp [modify, h]

theorem get?_modify_self {α : Type} (m : StrMap α) (k : String) (f : α → α) :
    (m.modify k f).get? k = (m.get? k).map f := by
  induction m with
  | nil => rfl
  | cons p t ih =>
    obtain ⟨a, v⟩ := p
    by_cases ha : a = k
    · rw [modify_cons_eq t a v k f ha]
      simp [get?, ha]
    · rw [modify_cons_ne t a v k f ha]
      simp only [get?, ha, if_false]
      exact ih

end StrMap

/-- Port profiles for different environments (`enum PortProfile`). -/
inductive PortProfile where
  | Default
  | Qa
  | Dev
deriving DecidableEq, Repr

/-- Ports as `(core, vault, synapse, alden)`, mirroring `PortProfile::get_ports`. -/
def PortProfile.get_ports : PortProfile → Nat × Nat × Nat × Nat
  | .Default => (8000, 8001, 8002, 8888)
  | .Qa => (8010, 8011, 8012, 8898)
  | .Dev => (8020, 8021, 8022, 8908)

/-- One worker's observable status record (`struct ServiceStatus`).
The `status` field holds one of "starting", "running", "stopped", "error". -/
structure ServiceStatus where
  name : String
  status : String
  port : Nat
  pid : Option Nat
  started_at : Option Nat
  health_check_url : String
  last_health_check : Option Nat
  error_message : Option String
  restart_count : Nat
  last_restart : Option Nat
  restart_backoff : Nat
deriving DecidableEq, Repr

/-- Derived health snapshot (`struct SystemHealth`). -/
structure SystemHealth where
  services : List ServiceStatus
  overall_status : String
  startup_time : Nat
deriving DecidableEq, Repr

/-- The supervisor's mutable state (`struct ServiceManager`): the process
registry (we record only the child's PID for each live handle), the status
table, the startup time, the port profile and the shutdown guard flag. -/
structure ManagerState where
  processes : StrMap Nat
  services : StrMap ServiceStatus
  startup_time : Nat
  port_profile : PortProfile
  shutdown_in_progress : Bool

/-- Oracles for the effects the supervisor performs against the outside
world: the clock, the result of probing for a Python 3 executable, script
presence on disk, process spawning, local port binding, and whether a child
exits within the graceful-stop window. -/
structure Env where
  now : Nat
  python : Except String String
  script_exists : String → Bool
  spawn : String → Except String Nat
  port_free : Nat → Bool
  bind_err : Nat → String
  exits_gracefully : String → Bool

/-- Externally visible process actions, used to state ordering and
frame properties. `termReq` is a termination request (`Child::kill` in a
graceful-stop step), `forceKill` a kill issued after the graceful wait
timed out or during the final sweep, `stopDone` marks the return of a
per-role graceful-stop routine, `spawned` a successful `Command::spawn`. -/
inductive Event where
  | termReq (name : String)
  | forceKill (name : String)
  | stopDone (name : String)
  | spawned (name : String) (pid : Nat)
deriving DecidableEq, Repr

/-- Health-check URL for a port, as formatted in `start_all_services`. -/
def health_url (port : Nat) : String :=
  "http://127.0.0.1:" ++ toString port ++ "/health"

/-- The `services` vector built at the top of `start_all_services`:
`(name, script_path, port, health_url)`, in source order. -/
def service_descriptors (profile : PortProfile) : List (String × String × Nat × String) :=
  let (core_port, vault_port, synapse_port, alden_port) := profile.get_ports
  [("alden", "src/api/alden_api.py", alden_port, health_url alden_port),
   ("vault", "src/vault/vault_api_server.py", vault_port, health_url vault_port),
   ("core", "src/api/core_api.py", core_port, health_url core_port),
   ("synapse", "src/api/synapse_api_server.py", synapse_port, health_url synapse_port)]

/-- Pre-flight port check (`check_port_availability`): tries to bind each
service's port in turn; the first failing bind aborts with an error naming
the port and the service. -/
def check_port_availability (env : Env) :
    List (String × String × Nat × String) → Except String Unit
  | [] => .ok ()
  | (name, _, port, _) :: rest =>
    if env.port_free port then check_port_availability env rest
    else .error ("Port " ++ toString port ++ " unavailable for " ++ name
                 ++ " service: " ++ env.bind_err port)

/-- Single-worker spawn (`start_service`): resolves Python, checks the
script exists under the resource directory, spawns the child, stores the
handle in the registry and inserts a fresh status record with
`status = "starting"`, `restart_count = 0`, `restart_backoff = 1`.
On any failure it returns the error with the state untouched (the source
returns before any insertion). -/
def start_service (env : Env) (st : ManagerState) (name script_path : String)
    (port : Nat) (health_check_url resource_dir : String) :
    Except String Unit × ManagerState × List Event :=
  match env.python with
  | .error e => (.error e, st, [])
  | .ok _ =>
    if env.script_exists (resource_dir ++ "/" ++ script_path) then
      match env.spawn name with
      | .error e => (.error ("Failed to start " ++ name ++ " service: " ++ e), st, [])
      | .ok pid =>
        let st1 : ManagerState := { st with processes := st.processes.insert name pid }
        let status : ServiceStatus :=
          { name := name
            status := "starting"
            port := port
            pid := some pid
            started_at := some env.now
            health_check_url := health_check_url
            last_health_check := none
            error_message := none
            restart_count := 0
            last_restart := none
            restart_backoff := 1 }
        (.ok (), { st1 with services := st1.services.insert name status },
         [Event.spawned name pid])
    else
      (.error ("Python script not found: " ++ resource_dir ++ "/" ++ script_path), st, [])

/-- The `for` loop of `start_all_services`: starts each descriptor in turn,
aborting on the first failure (workers already spawned stay). -/
def start_services_loop (env : Env) (st : ManagerState)
    (resource_dir : String) :
    List (String × String × Nat × String) →
    Except String Unit × ManagerState × List Event
  | [] => (.ok (), st, [])
  | (name, script_path, port, url) :: rest =>
    match start_service env st name script_path port url resource_dir with
    | (.ok _, st', tr) =>
      let r := start_services_loop env st' resource_dir rest
      (r.1, r.2.1, tr ++ r.2.2)
    | (.error e, st', tr) => (.error e, st', tr)

/-- `start_all_services`: builds the descriptors from the port profile,
runs the pre-flight port check (aborting the whole startup on failure,
before anything is spawned), then starts every service in order.  The
subsequent `start_health_monitoring` call only spawns the background probe
loop and does not change the supervisor state. -/
def start_all_services (env : Env) (st : ManagerState) (resource_dir : String) :
    Except String Unit × ManagerState × List Event :=
  let services := service_descriptors st.port_profile
  match check_port_availability env services with
  | .error e => (.error e, st, [])
  | .ok _ => start_services_loop env st resource_dir services

/-- Sets a role's status record to `"stopped"` with `pid = None` when the
record exists (the `if let Some(service) = services.get_mut(..)` epilogue
shared by both graceful-stop routines). -/
def set_status_stopped (st : ManagerState) (name : String) : ManagerState :=
  { st with
      services := st.services.modify name
        (fun s => { s with status := "stopped", pid := none }) }

/-- `graceful_stop_service` (the restart path's stop): removes the handle
from the registry, sends the termination request and waits, then marks the
status record stopped.  When no handle is registered only the status update
happens. -/
def graceful_stop_service (st : ManagerState) (name : String) :
    ManagerState × List Event :=
  match st.processes.get? name with
  | some _ =>
    (set_status_stopped { st with processes := st.processes.erase name } name,
     [Event.termReq name])
  | none => (set_status_stopped st name, [])

/-- The per-service configuration table `(script_path, port, health_url)`
that `restart_service_with_backoff` (and the `restart_service` command)
matches `service_name` against; `none` models the `Unknown service` arm. -/
def serviceConfig (profile : PortProfile) (service_name : String) :
    Option (String × Nat × String) :=
  let (core_port, vault_port, synapse_port, alden_port) := profile.get_ports
  if service_name = "alden" then
    some ("src/api/alden_api.py", alden_port, health_url alden_port)
  else if service_name = "vault" then
    some ("src/vault/vault_api_server.py", vault_port, health_url vault_port)
  else if service_name = "core" then
    some ("src/api/core_api.py", core_port, health_url core_port)
  else if service_name = "synapse" then
    some ("src/api/synapse_api_server.py", synapse_port, health_url synapse_port)
  else none

/-- The relaunch half of `restart_service_with_backoff`, reached once the
ceiling and backoff-window checks have passed: gracefully stop the old
process, call `start_service` again, and on success bump the restart
statistics of the (freshly re-inserted) status record:
`restart_count += 1`, `last_restart = now`,
`restart_backoff = min(restart_backoff * 2, 30)`. -/
def restart_do (env : Env) (st : ManagerState) (service_name : String)
    (cfg : String × Nat × String) (resource_dir : String) :
    Except String Unit × ManagerState × List Event :=
  let r0 := graceful_stop_service st service_name
  match start_service env r0.1 service_name cfg.1 cfg.2.1 cfg.2.2 resource_dir with
  | (.ok _, st2, tr2) =>
    let st3 : ManagerState :=
      { st2 with
          services := st2.services.modify service_name
            (fun s =>
              { s with
                  restart_count := s.restart_count + 1
                  last_restart := some env.now
                  restart_backoff := min (s.restart_backoff * 2) 30 }) }
    (.ok (), st3, r0.2 ++ tr2)
  | (.error e, st2, tr2) => (.error e, st2, r0.2 ++ tr2)

/-- `restart_service_with_backoff`: resolve the service configuration
(unknown names error out), then read the status record under lock —
no record means no restart (`should_restart = false`, returns `Ok`);
`restart_count >= 5` is a terminal error; a restart more recent than
`restart_backoff` seconds ago is a successful no-op; otherwise relaunch. -/
def restart_service_with_backoff (env : Env) (st : ManagerState)
    (service_name resource_dir : String) :
    Except String Unit × ManagerState × List Event :=
  match serviceConfig st.port_profile service_name with
  | none => (.error ("Unknown service: " ++ service_name), st, [])
  | some cfg =>
    match st.services.get? service_name with
    | none => (.ok (), st, [])
    | some service =>
      if service.restart_count ≥ 5 then
        (.error "Max restart attempts exceeded", st, [])
      else
        match service.last_restart with
        | some lr =>
          if env.now - lr < service.restart_backoff then (.ok (), st, [])
          else restart_do env st service_name cfg resource_dir
        | none => restart_do env st service_name cfg resource_dir

/-- Outcome of one HTTP health probe: `ok code display` models
`Ok(response)` (with `display` the `Display` rendering of the status code,
e.g. "500 Internal Server Error"), `err msg` a transport-level failure. -/
inductive ProbeResult where
  | ok (code : Nat) (display : String)
  | err (msg : String)
deriving DecidableEq, Repr

/-- `StatusCode::is_success`: 2xx. -/
def is_success (code : Nat) : Bool :=
  decide (200 ≤ code) && decide (code < 300)

/-- The status-record update one monitoring cycle applies to one service
(`start_health_monitoring`, match on `health_result`):
`last_health_check` is always refreshed; a 2xx while "starting" or "error"
transitions to "running" and resets the error message and restart
counters; a non-2xx records `HTTP <status>` and an error phase; a
transport failure records its message and an error phase.  The
`was_running` branches only log that a restart should be scheduled —
no restart call exists in the loop. -/
def probe_update (now : Nat) (r : ProbeResult) (s : ServiceStatus) : ServiceStatus :=
  let s1 : ServiceStatus := { s with last_health_check := some now }
  match r with
  | .ok code display =>
    if is_success code then
      if s1.status = "starting" ∨ s1.status = "error" then
        { s1 with
            status := "running"
            error_message := none
            restart_count := 0
            restart_backoff := 1 }
      else s1
    else { s1 with status := "error", error_message := some ("HTTP " ++ display) }
  | .err e => { s1 with status := "error", error_message := some e }

/-- One service's step of the monitor loop body: look the record up and
store its `probe_update`; nothing else in the loop mutates state. -/
def monitor_probe_step (now : Nat) (r : ProbeResult) (st : ManagerState)
    (name : String) : ManagerState :=
  match st.services.get? name with
  | none => st
  | some s => { st with services := st.services.insert name (probe_update now r s) }

/-- `get_system_health`: the list of status records plus the computed
`overall_status` — "healthy" when `all` records are "running", else
"degraded" when `any` is, else "unhealthy". -/
def get_system_health (st : ManagerState) : SystemHealth :=
  let service_list := st.services.map (fun p => p.2)
  let overall_status :=
    if service_list.all (fun s => s.status == "running") then "healthy"
    else if service_list.any (fun s => s.status == "running") then "degraded"
    else "unhealthy"
  { services := service_list
    overall_status := overall_status
    startup_time := st.startup_time }

/-- The force-kill tail of an enhanced graceful stop: empty when the child
exits within the 15-second wait, a forced kill otherwise. -/
def kill_after_timeout (env : Env) (name : String) : List Event :=
  if env.exits_gracefully name then [] else [Event.forceKill name]

/-- `graceful_stop_service_enhanced`: remove the handle, send the
termination request, wait up to 15 seconds and force-kill on timeout, then
mark the status record stopped.  `stopDone` marks the routine's return. -/
def graceful_stop_service_enhanced (env : Env) (st : ManagerState)
    (name : String) : ManagerState × List Event :=
  match st.processes.get? name with
  | some _ =>
    (set_status_stopped { st with processes := st.processes.erase name } name,
     Event.termReq name :: (kill_after_timeout env name ++ [Event.stopDone name]))
  | none => (set_status_stopped st name, [Event.stopDone name])

/-- `stop_all_services`: if a shutdown is already in progress, return at
once (the guard flag is set under lock and never cleared); otherwise set
the flag, stop the four roles in the fixed reverse-dependency order
"synapse", "core", "vault", "alden" (each enhanced graceful stop runs to
completion before the next begins), force-terminate anything left in the
registry, and finally mark every status record stopped.  Releasing the
single-instance lock is an external effect outside the supervisor state. -/
def stop_all_services (env : Env) (st : ManagerState) :
    ManagerState × List Event :=
  if st.shutdown_in_progress then (st, [])
  else
    let st0 : ManagerState := { st with shutdown_in_progress := true }
    let r1 := graceful_stop_service_enhanced env st0 "synapse"
    let r2 := graceful_stop_service_enhanced env r1.1 "core"
    let r3 := graceful_stop_service_enhanced env r2.1 "vault"
    let r4 := graceful_stop_service_enhanced env r3.1 "alden"
    let sweep := r4.1.processes.map (fun p => Event.forceKill p.1)
    let st5 : ManagerState := { r4.1 with processes := [] }
    let st6 : ManagerState :=
      { st5 with
          services := st5.services.mapValues
            (fun s => { s with status := "stopped", pid := none }) }
    (st6, r1.2 ++ r2.2 ++ r3.2 ++ r4.2 ++ sweep)

/-! ## Helper lemmas -/

theorem set_status_stopped_processes (st : ManagerState) (name : String) :
    (set_status_stopped st name).processes = st.processes := rfl

theorem gse_flag (env : Env) (st : ManagerState) (name : String) :
    (graceful_stop_service_enhanced env st name).1.shutdown_in_progress =
      st.shutdown_in_progress := by
  unfold graceful_stop_service_enhanced
  cases st.processes.get? name <;> simp [set_status_stopped]

theorem gse_eq_of_get (env : Env) (st : ManagerState) (name : String) (p : Nat)
    (h : st.processes.get? name = some p) :
    graceful_stop_service_enhanced env st name =
      (set_status_stopped { st with processes := st.processes.erase name } name,
       Event.termReq name :: (kill_after_timeout env name ++ [Event.stopDone name])) := by
  unfold graceful_stop_service_enhanced
  rw [h]

theorem gse_processes_of_get (env : Env) (st : ManagerState) (name : String) (p : Nat)
    (h : st.processes.get? name = some p) :
    (graceful_stop_service_enhanced env st name).1.processes =
      st.processes.erase name := by
  rw [gse_eq_of_get env st name p h]
  rfl

theorem gse_trace_of_get (env : Env) (st : ManagerState) (name : String) (p : Nat)
    (h : st.processes.get? name = some p) :
    (graceful_stop_service_enhanced env st name).2 =
      Event.termReq name :: (kill_after_timeout env name ++ [Event.stopDone name]) := by
  rw [gse_eq_of_get env st name p h]

/-! ## Concrete inputs used by witnesses and counterexamples -/

/-- A fully cooperative environment: Python resolves, scripts exist, every
spawn yields PID 42, every port binds, children exit within the window. -/
def envW : Env :=
  { now := 1000
    python := .ok "python3"
    script_exists := fun _ => true
    spawn := fun _ => .ok 42
    port_free := fun _ => true
    bind_err := fun _ => "address in use"
    exits_gracefully := fun _ => true }

/-- A status record with the given phase and restart statistics. -/
def mkStatus (name : String) (port : Nat) (status : String)
    (count backoff : Nat) (lastRestart : Option Nat) : ServiceStatus :=
  { name := name
    status := status
    port := port
    pid := some 7
    started_at := some 0
    health_check_url := health_url port
    last_health_check := none
    error_message := none
    restart_count := count
    last_restart := lastRestart
    restart_backoff := backoff }

/-- A supervisor state with no worker ever launched. -/
def stEmpty : ManagerState :=
  { processes := []
    services := []
    startup_time := 0
    port_profile := .Default
    shutdown_in_progress := false }

/-! ## C7 — stop_all is idempotent -/

/-- C7: once one `stop_all_services` call has run, the guard flag is set,
and any subsequent `stop_all_services` call returns the state unchanged
with an empty event trace — it kills no process and modifies no status
record, so exactly one teardown sequence executes. -/
theorem stop_all_idempotent (env env' : Env) (st : ManagerState) :
    (stop_all_services env st).1.shutdown_in_progress = true ∧
    stop_all_services env' (stop_all_services env st).1 =
      ((stop_all_services env st).1, []) := by
  have hflag : (stop_all_services env st).1.shutdown_in_progress = true := by
    by_cases h : st.shutdown_in_progress
    · simp [stop_all_services, h]
    · simp [stop_all_services, h, gse_flag]
  refine ⟨hflag, ?_⟩
  rw [stop_all_services.eq_def, hflag]
  simp

/-! ## C8 — overall health status -/

/-- C8 counterexample: with no worker ever launched the status table is
empty, and `get_system_health` reports `overall_status = "healthy"`
(the `all`-quantifier is vacuously true), not `"unhealthy"` as claimed. -/
theorem empty_table_overall_healthy :
    (get_system_health stEmpty).overall_status = "healthy" ∧
    "healthy" ≠ "unhealthy" := by
  exact ⟨rfl, by decide⟩

/-- C8 (amended): `overall_status` is "healthy" when every record is
running (vacuously so for the empty table), "degraded" when some but not
all records are running, and "unhealthy" when the table is non-empty and
no record is running. -/
theorem overall_status_trichotomy (st : ManagerState) :
    ((∀ s ∈ (get_system_health st).services, s.status = "running") →
      (get_system_health st).overall_status = "healthy") ∧
    (((∃ s ∈ (get_system_health st).services, s.status = "running") ∧
      (∃ s ∈ (get_system_health st).services, s.status ≠ "running")) →
      (get_system_health st).overall_status = "degraded") ∧
    (((get_system_health st).services ≠ [] ∧
      (∀ s ∈ (get_system_health st).services, s.status ≠ "running")) →
      (get_system_health st).overall_status = "unhealthy") := by
  have hsvc : (get_system_health st).services = st.services.map (fun p => p.2) := rfl
  refine ⟨?_, ?_, ?_⟩
  · intro h
    rw [hsvc] at h
    have hall : (st.services.map (fun p => p.2)).all (fun s => s.status == "running") = true :=
      List.all_eq_true.mpr (fun s hs => by rw [beq_iff_eq]; exact h s hs)
    simp [get_system_health, hall]
  · rintro ⟨⟨s₁, hs₁, hrun⟩, ⟨s₂, hs₂, hnot⟩⟩
    rw [hsvc] at hs₁ hs₂
    have hall : (st.services.map (fun p => p.2)).all (fun s => s.status == "running") = false := by
      rw [List.all_eq_false]
      exact ⟨s₂, hs₂, by simpa [beq_iff_eq] using hnot⟩
    have hany : (st.services.map (fun p => p.2)).any (fun s => s.status == "running") = true :=
      List.any_eq_true.mpr ⟨s₁, hs₁, by rw [beq_iff_eq]; exact hrun⟩
    simp [get_system_health, hall, hany]
  · rintro ⟨hne, hnot⟩
    rw [hsvc] at hne hnot
    obtain ⟨s₀, hs₀⟩ := List.exists_mem_of_ne_nil _ hne
    have hall : (st.services.map (fun p => p.2)).all (fun s => s.status == "running") = false := by
      rw [List.all_eq_false]
      exact ⟨s₀, hs₀, by simpa [beq_iff_eq] using hnot s₀ hs₀⟩
    have hany : (st.services.map (fun p => p.2)).any (fun s => s.status == "running") = false := by
      rw [List.any_eq_false]
      intro s hs
      simpa [beq_iff_eq] using hnot s hs
    simp [get_system_health, hall, hany]

/-- Witness for C8's amended theorem: one state per branch.  An all-running
table is healthy, a mixed table degraded, a non-empty all-error table
unhealthy. -/
def stAllRun : ManagerState :=
  { stEmpty with services := [("core", mkStatus "core" 8000 "running" 0 1 none)] }

def stMixed : ManagerState :=
  { stEmpty with
      services := [("core", mkStatus "core" 8000 "running" 0 1 none),
                   ("vault", mkStatus "vault" 8001 "error" 0 1 none)] }

def stNoneRun : ManagerState :=
  { stEmpty with services := [("core", mkStatus "core" 8000 "error" 0 1 none)] }

theorem overall_status_trichotomy_witness :
    (get_system_health stAllRun).overall_status = "healthy" ∧
    (get_system_health stMixed).overall_status = "degraded" ∧
    (get_system_health stNoneRun).overall_status = "unhealthy" := by
  refine ⟨(overall_status_trichotomy stAllRun).1 ?_,
          (overall_status_trichotomy stMixed).2.1 ?_,
          (overall_status_trichotomy stNoneRun).2.2 ?_⟩
  · intro s hs
    have hs' : s = mkStatus "core" 8000 "running" 0 1 none := List.mem_singleton.mp hs
    rw [hs']
    rfl
  · constructor
    · exact ⟨mkStatus "core" 8000 "running" 0 1 none, by decide, rfl⟩
    · exact ⟨mkStatus "vault" 8001 "error" 0 1 none, by decide, by decide⟩
  · refine ⟨by decide, ?_⟩
    intro s hs
    have hs' : s = mkStatus "core" 8000 "error" 0 1 none := List.mem_singleton.mp hs
    rw [hs']
    decide

/-! ## C4 — recovery on a successful probe -/

/-- C4: a 2xx probe while the phase is "starting" or "error" transitions
the record to "running", clears the error message and resets
`restart_count` to 0 and `restart_backoff` to 1. -/
theorem probe_success_resets (now code : Nat) (display : String) (s : ServiceStatus)
    (hphase : s.status = "starting" ∨ s.status = "error")
    (hcode : is_success code = true) :
    (probe_update now (.ok code display) s).status = "running" ∧
    (probe_update now (.ok code display) s).error_message = none ∧
    (probe_update now (.ok code display) s).restart_count = 0 ∧
    (probe_update now (.ok code display) s).restart_backoff = 1 := by
  rcases hphase with h | h <;> simp [probe_update, hcode, h]

theorem probe_success_resets_witness :
    ((mkStatus "core" 8000 "error" 3 8 (some 7)).status = "starting" ∨
     (mkStatus "core" 8000 "error" 3 8 (some 7)).status = "error") ∧
    is_success 200 = true ∧
    ((probe_update 50 (.ok 200 "200 OK") (mkStatus "core" 8000 "error" 3 8 (some 7))).status = "running" ∧
     (probe_update 50 (.ok 200 "200 OK") (mkStatus "core" 8000 "error" 3 8 (some 7))).error_message = none ∧
     (probe_update 50 (.ok 200 "200 OK") (mkStatus "core" 8000 "error" 3 8 (some 7))).restart_count = 0 ∧
     (probe_update 50 (.ok 200 "200 OK") (mkStatus "core" 8000 "error" 3 8 (some 7))).restart_backoff = 1) :=
  ⟨Or.inr rfl, rfl,
   probe_success_resets 50 200 "200 OK" (mkStatus "core" 8000 "error" 3 8 (some 7))
     (Or.inr rfl) rfl⟩

/-! ## C2 — failed probes of a running worker -/

/-- The probe outcome for an HTTP 500 response. -/
def probe500 : ProbeResult := .ok 500 "500 Internal Server Error"

/-- A worker that has passed its health checks: phase "running", restart
counters at their initial values. -/
def sRunning : ServiceStatus := mkStatus "core" 8000 "running" 0 1 none

/-- C2: three consecutive HTTP 500 probes of a previously running "core"
worker set the phase to "error" and record the failure reason, but the
monitor loop performs no restart call and `restart_backoff` stays 1 after
every failure — it does not grow 1→2→4 as claimed (the loop only logs
"scheduling restart"; no restart is scheduled and the restart coordinator
is never invoked by it). -/
theorem failed_probes_no_backoff_growth :
    (probe_update 1 probe500 sRunning).status = "error" ∧
    (probe_update 1 probe500 sRunning).error_message =
      some "HTTP 500 Internal Server Error" ∧
    (probe_update 1 probe500 sRunning).restart_backoff = 1 ∧
    (probe_update 2 probe500 (probe_update 1 probe500 sRunning)).restart_backoff = 1 ∧
    (probe_update 3 probe500 (probe_update 2 probe500
        (probe_update 1 probe500 sRunning))).restart_backoff = 1 ∧
    (probe_update 3 probe500 (probe_update 2 probe500
        (probe_update 1 probe500 sRunning))).status = "error" :=
  ⟨rfl, rfl, rfl, rfl, rfl, rfl⟩

/-! ## C1 — backoff growth across restarts -/

/-- A "core" worker after one earlier successful restart: the coordinator
left it with `restart_count = 1`, `restart_backoff = 2`,
`last_restart = 0`; the clock is now far past the backoff window. -/
def stAfterOneRestart : ManagerState :=
  { processes := [("core", 7)]
    services := [("core",
      { mkStatus "core" 8000 "error" 1 2 (some 0) with
          error_message := some "HTTP 500 Internal Server Error" })]
    startup_time := 0
    port_profile := .Default
    shutdown_in_progress := false }

/-- The environment at the second restart: time 100, everything spawns. -/
def envSecondRestart : Env := { envW with now := 100 }

/-- C1: the claimed doubling sequence 1, 2, 4, 8, 16, 30 fails on the
code.  From a record with `restart_backoff = 2`, a further successful
relaunch leaves `restart_backoff = 2` (and `restart_count = 1`) instead of
doubling to 4: `start_service` re-inserts a fresh record with backoff 1
and count 0 before the coordinator applies `min(backoff * 2, 30)`. -/
theorem restart_backoff_not_doubled :
    ((stAfterOneRestart.services.get? "core").map ServiceStatus.restart_backoff
      = some 2) ∧
    (restart_service_with_backoff envSecondRestart stAfterOneRestart "core" "rd").1
      = .ok () ∧
    (((restart_service_with_backoff envSecondRestart stAfterOneRestart "core" "rd").2.1.services.get?
        "core").map ServiceStatus.restart_backoff = some 2) ∧
    (((restart_service_with_backoff envSecondRestart stAfterOneRestart "core" "rd").2.1.services.get?
        "core").map ServiceStatus.restart_count = some 1) :=
  ⟨rfl, rfl, rfl, rfl⟩

/-! ## C3 — restart ceiling -/

/-- Every known role name resolves to a configuration. -/
theorem serviceConfig_known (profile : PortProfile) (name : String)
    (hname : name = "alden" ∨ name = "vault" ∨ name = "core" ∨ name = "synapse") :
    ∃ c, serviceConfig profile name = some c := by
  rcases hname with h | h | h | h <;> subst h <;> exact ⟨_, rfl⟩

/-- C3: for any role whose status record has `restart_count >= 5`, a
restart attempt returns the terminal "Max restart attempts exceeded"
error, leaves the whole supervisor state (process registry and status
table) untouched, and emits no process event — nothing is stopped or
spawned. -/
theorem restart_refused_at_ceiling (env : Env) (st : ManagerState)
    (name resource_dir : String) (s : ServiceStatus)
    (hname : name = "alden" ∨ name = "vault" ∨ name = "core" ∨ name = "synapse")
    (hget : st.services.get? name = some s)
    (hcount : s.restart_count ≥ 5) :
    restart_service_with_backoff env st name resource_dir =
      (.error "Max restart attempts exceeded", st, []) := by
  obtain ⟨c, hc⟩ := serviceConfig_known st.port_profile name hname
  simp [restart_service_with_backoff, hc, hget, hcount]

/-- A "vault" worker that has exhausted its restart budget. -/
def stAtCeiling : ManagerState :=
  { stEmpty with
      services := [("vault", mkStatus "vault" 8001 "error" 5 30 (some 0))] }

theorem restart_refused_at_ceiling_witness :
    ("vault" = "alden" ∨ "vault" = "vault" ∨ "vault" = "core" ∨ "vault" = "synapse") ∧
    stAtCeiling.services.get? "vault" = some (mkStatus "vault" 8001 "error" 5 30 (some 0)) ∧
    (mkStatus "vault" 8001 "error" 5 30 (some 0)).restart_count ≥ 5 ∧
    restart_service_with_backoff envW stAtCeiling "vault" "rd" =
      (.error "Max restart attempts exceeded", stAtCeiling, []) :=
  ⟨Or.inr (Or.inl rfl), rfl, Nat.le_refl 5,
   restart_refused_at_ceiling envW stAtCeiling "vault" "rd"
     (mkStatus "vault" 8001 "error" 5 30 (some 0))
     (Or.inr (Or.inl rfl)) rfl (Nat.le_refl 5)⟩

/-! ## C9 — backoff window is a successful no-op -/

/-- C9: for a role with `restart_count < 5` whose last restart is more
recent than `restart_backoff` seconds ago, a restart attempt returns
success while leaving the supervisor state untouched and emitting no
process event — nothing is stopped or spawned. -/
theorem restart_noop_in_backoff_window (env : Env) (st : ManagerState)
    (name resource_dir : String) (s : ServiceStatus) (lr : Nat)
    (hname : name = "alden" ∨ name = "vault" ∨ name = "core" ∨ name = "synapse")
    (hget : st.services.get? name = some s)
    (hcount : s.restart_count < 5)
    (hlast : s.last_restart = some lr)
    (hrecent : env.now - lr < s.restart_backoff) :
    restart_service_with_backoff env st name resource_dir = (.ok (), st, []) := by
  obtain ⟨c, hc⟩ := serviceConfig_known st.port_profile name hname
  simp [restart_service_with_backoff, hc, hget, Nat.not_le.mpr hcount, hlast, hrecent]

/-- An "alden" worker restarted 3 seconds ago with a 16-second backoff. -/
def stInWindow : ManagerState :=
  { stEmpty with
      services := [("alden", mkStatus "alden" 8888 "error" 4 16 (some 997))] }

theorem restart_noop_in_backoff_window_witness :
    ("alden" = "alden" ∨ "alden" = "vault" ∨ "alden" = "core" ∨ "alden" = "synapse") ∧
    stInWindow.services.get? "alden" = some (mkStatus "alden" 8888 "error" 4 16 (some 997)) ∧
    (mkStatus "alden" 8888 "error" 4 16 (some 997)).restart_count < 5 ∧
    (mkStatus "alden" 8888 "error" 4 16 (some 997)).last_restart = some 997 ∧
    envW.now - 997 < (mkStatus "alden" 8888 "error" 4 16 (some 997)).restart_backoff ∧
    restart_service_with_backoff envW stInWindow "alden" "rd" = (.ok (), stInWindow, []) :=
  ⟨Or.inl rfl, rfl, by decide, rfl, by decide,
   restart_noop_in_backoff_window envW stInWindow "alden" "rd"
     (mkStatus "alden" 8888 "error" 4 16 (some 997)) 997
     (Or.inl rfl) rfl (by decide) rfl (by decide)⟩

/-! ## C10 — start_service inserts a fresh record; restart stats -/

/-- The status record `start_service` inserts for a successful spawn. -/
def fresh_status (env : Env) (name : String) (port : Nat)
    (health_check_url : String) (pid : Nat) : ServiceStatus :=
  { name := name
    status := "starting"
    port := port
    pid := some pid
    started_at := some env.now
    health_check_url := health_check_url
    last_health_check := none
    error_message := none
    restart_count := 0
    last_restart := none
    restart_backoff := 1 }

theorem start_service_ok_get (env : Env) (st : ManagerState)
    (name script_path : String) (port : Nat) (url resource_dir : String)
    (h : (start_service env st name script_path port url resource_dir).1 = .ok ()) :
    ∃ pid, env.spawn name = .ok pid ∧
      (start_service env st name script_path port url resource_dir).2.1.services.get? name
        = some (fresh_status env name port url pid) := by
  cases hp : env.python with
  | error e => simp [start_service, hp] at h
  | ok py =>
    by_cases hscript : env.script_exists (resource_dir ++ "/" ++ script_path)
    · cases hspawn : env.spawn name with
      | error e => simp [start_service, hp, hscript, hspawn] at h
      | ok pid =>
        refine ⟨pid, rfl, ?_⟩
        simp [start_service, hp, hscript, hspawn, fresh_status,
              StrMap.get?_insert_self]
    · simp [start_service, hp, hscript] at h

theorem restart_do_stats (env : Env) (st : ManagerState)
    (name : String) (cfg : String × Nat × String) (resource_dir : String)
    (hok : (restart_do env st name cfg resource_dir).1 = .ok ()) :
    ∃ s', (restart_do env st name cfg resource_dir).2.1.services.get? name = some s' ∧
      s'.restart_count = 1 ∧ s'.restart_backoff = 2 ∧
      s'.status = "starting" ∧ s'.last_restart = some env.now := by
  rcases hS : start_service env (graceful_stop_service st name).1 name
      cfg.1 cfg.2.1 cfg.2.2 resource_dir with ⟨r, st2, tr2⟩
  cases r with
  | error e =>
    simp only [restart_do] at hok
    rw [hS] at hok
    simp at hok
  | ok u =>
    cases u
    have hget := start_service_ok_get env (graceful_stop_service st name).1
      name cfg.1 cfg.2.1 cfg.2.2 resource_dir (by rw [hS])
    obtain ⟨pid, _, hfresh⟩ := hget
    rw [hS] at hfresh
    simp only [restart_do]
    rw [hS]
    simp only [StrMap.get?_modify_self, hfresh, Option.map_some]
    exact ⟨_, rfl, rfl, rfl, rfl, rfl⟩

/-- C10: (a) every successful `start_service` replaces the role's status
record with a fresh one — phase "starting", `restart_count = 0`,
`restart_backoff = 1`, no error message; (b) consequently a restart
attempt that actually relaunched a process (result `Ok` and a `spawned`
event in its trace) always leaves `restart_count = 1` and
`restart_backoff = 2`, whatever the record held before. -/
theorem restart_resets_record_then_bumps (env : Env) (st : ManagerState)
    (name resource_dir : String) :
    (∀ script_path port url,
      (start_service env st name script_path port url resource_dir).1 = .ok () →
      ∃ pid, env.spawn name = .ok pid ∧
        (start_service env st name script_path port url resource_dir).2.1.services.get? name
          = some (fresh_status env name port url pid)) ∧
    ((restart_service_with_backoff env st name resource_dir).1 = .ok () →
     (∃ p n, Event.spawned n p ∈ (restart_service_with_backoff env st name resource_dir).2.2) →
     ∃ s', (restart_service_with_backoff env st name resource_dir).2.1.services.get? name
         = some s' ∧
       s'.restart_count = 1 ∧ s'.restart_backoff = 2 ∧ s'.status = "starting") := by
  constructor
  · intro script_path port url h
    exact start_service_ok_get env st name script_path port url resource_dir h
  · intro hok hmem
    cases hc : serviceConfig st.port_profile name with
    | none => rw [restart_service_with_backoff.eq_def, hc] at hok; simp at hok
    | some cfg =>
      cases hget : st.services.get? name with
      | none =>
        rw [restart_service_with_backoff.eq_def, hc, hget] at hmem
        simp at hmem
      | some s =>
        by_cases h5 : s.restart_count ≥ 5
        · rw [restart_service_with_backoff.eq_def, hc, hget] at hok
          simp [h5] at hok
        · cases hlr : s.last_restart with
          | none =>
            rw [restart_service_with_backoff.eq_def, hc, hget]
            simp only [h5, if_false, hlr]
            have hok' : (restart_do env st name cfg resource_dir).1 = .ok () := by
              rw [restart_service_with_backoff.eq_def, hc, hget] at hok
              simpa [h5, hlr] using hok
            obtain ⟨s', hs', h1, h2, h3, _⟩ := restart_do_stats env st name cfg resource_dir hok'
            exact ⟨s', hs', h1, h2, h3⟩
          | some lr =>
            by_cases hwin : env.now - lr < s.restart_backoff
            · rw [restart_service_with_backoff.eq_def, hc, hget] at hmem
              simp [h5, hlr, hwin] at hmem
            · rw [restart_service_with_backoff.eq_def, hc, hget]
              simp only [h5, if_false, hlr, hwin]
              have hok' : (restart_do env st name cfg resource_dir).1 = .ok () := by
                rw [restart_service_with_backoff.eq_def, hc, hget] at hok
                simpa [h5, hlr, hwin] using hok
              obtain ⟨s', hs', h1, h2, h3, _⟩ := restart_do_stats env st name cfg resource_dir hok'
              exact ⟨s', hs', h1, h2, h3⟩

theorem restart_resets_record_then_bumps_witness :
    ((start_service envSecondRestart stAfterOneRestart "core" "src/api/core_api.py"
        8000 (health_url 8000) "rd").1 = .ok () ∧
     (restart_service_with_backoff envSecondRestart stAfterOneRestart "core" "rd").1 = .ok () ∧
     Event.spawned "core" 42 ∈
       (restart_service_with_backoff envSecondRestart stAfterOneRestart "core" "rd").2.2) ∧
    ((∃ pid, envSecondRestart.spawn "core" = .ok pid ∧
       (start_service envSecondRestart stAfterOneRestart "core" "src/api/core_api.py"
          8000 (health_url 8000) "rd").2.1.services.get? "core"
         = some (fresh_status envSecondRestart "core" 8000 (health_url 8000) pid)) ∧
     (∃ s', (restart_service_with_backoff envSecondRestart stAfterOneRestart "core" "rd").2.1.services.get? "core"
         = some s' ∧
       s'.restart_count = 1 ∧ s'.restart_backoff = 2 ∧ s'.status = "starting")) :=
  ⟨⟨rfl, rfl, by decide⟩,
   (restart_resets_record_then_bumps envSecondRestart stAfterOneRestart "core" "rd").1
     "src/api/core_api.py" 8000 (health_url 8000) rfl,
   (restart_resets_record_then_bumps envSecondRestart stAfterOneRestart "core" "rd").2
     rfl ⟨42, "core", by decide⟩⟩

/-! ## C5 — pre-flight port check aborts start_all -/

theorem check_port_err_of_exists (env : Env)
    (l : List (String × String × Nat × String))
    (h : ∃ d ∈ l, env.port_free d.2.2.1 = false) :
    ∃ name script port url, (name, script, port, url) ∈ l ∧
      env.port_free port = false ∧
      check_port_availability env l =
        .error ("Port " ++ toString port ++ " unavailable for " ++ name
                ++ " service: " ++ env.bind_err port) := by
  induction l with
  | nil =>
    obtain ⟨d, hd, _⟩ := h
    cases hd
  | cons d t ih =>
    obtain ⟨name, script, port, url⟩ := d
    by_cases hp : env.port_free port
    · have h' : ∃ d ∈ t, env.port_free d.2.2.1 = false := by
        obtain ⟨d', hd', hfree⟩ := h
        rcases List.mem_cons.mp hd' with rfl | hmem
        · rw [hp] at hfree
          cases hfree
        · exact ⟨d', hmem, hfree⟩
      obtain ⟨n, s, p, u, hmem, hfree, heq⟩ := ih h'
      exact ⟨n, s, p, u, List.mem_cons_of_mem _ hmem, hfree,
             by simp [check_port_availability, hp, heq]⟩
    · refine ⟨name, script, port, url, List.mem_cons_self _ _, ?_, ?_⟩
      · simpa using hp
      · simp [check_port_availability, hp]

/-- C5: when any descriptor's port cannot be bound, `start_all_services`
fails the pre-flight check and aborts before anything happens: the result
is an error naming an unbindable port and its role, the supervisor state
is returned unchanged (no process handle stored, no status record
created), and no process event — in particular no spawn — occurs. -/
theorem start_all_aborts_on_busy_port (env : Env) (st : ManagerState)
    (resource_dir : String)
    (h : ∃ d ∈ service_descriptors st.port_profile, env.port_free d.2.2.1 = false) :
    ∃ name port,
      (∃ script url, (name, script, port, url) ∈ service_descriptors st.port_profile) ∧
      env.port_free port = false ∧
      start_all_services env st resource_dir =
        (.error ("Port " ++ toString port ++ " unavailable for " ++ name
                 ++ " service: " ++ env.bind_err port), st, []) := by
  obtain ⟨n, s, p, u, hmem, hfree, heq⟩ :=
    check_port_err_of_exists env (service_descriptors st.port_profile) h
  refine ⟨n, p, ⟨s, u, hmem⟩, hfree, ?_⟩
  simp only [start_all_services]
  rw [heq]

/-- An environment in which port 8888 (the default "alden" port) is
already bound by another process. -/
def envBusy : Env :=
  { envW with port_free := fun p => decide (p ≠ 8888) }

theorem start_all_aborts_on_busy_port_witness :
    (∃ d ∈ service_descriptors stEmpty.port_profile,
       envBusy.port_free d.2.2.1 = false) ∧
    (∃ name port,
      (∃ script url, (name, script, port, url) ∈ service_descriptors stEmpty.port_profile) ∧
      envBusy.port_free port = false ∧
      start_all_services envBusy stEmpty "rd" =
        (.error ("Port " ++ toString port ++ " unavailable for " ++ name
                 ++ " service: " ++ envBusy.bind_err port), stEmpty, [])) :=
  ⟨⟨("alden", "src/api/alden_api.py", 8888, health_url 8888), by decide, rfl⟩,
   start_all_aborts_on_busy_port envBusy stEmpty "rd"
     ⟨("alden", "src/api/alden_api.py", 8888, health_url 8888), by decide, rfl⟩⟩

/-! ## C6 — shutdown order -/

/-- C6: whenever the teardown sequence actually runs (the guard flag was
clear and all four workers are registered), the event trace of
`stop_all_services` is exactly: synapse's termination request, synapse's
stop completing, core's termination request, core's stop completing, then
vault's, then alden's — each role's graceful stop completes before the
next role's begins, and the only later events are force kills from the
final registry sweep.  In particular termination is requested for
"synapse" strictly before "core", "core" strictly before "vault", and
"vault" strictly before "alden". -/
theorem stop_all_reverse_dependency_order (env : Env) (st : ManagerState)
    (ps pc pv pa : Nat)
    (hflag : st.shutdown_in_progress = false)
    (hs : st.processes.get? "synapse" = some ps)
    (hc : st.processes.get? "core" = some pc)
    (hv : st.processes.get? "vault" = some pv)
    (ha : st.processes.get? "alden" = some pa) :
    ∃ rest : List Event, (∀ e ∈ rest, ∃ n, e = Event.forceKill n) ∧
      (stop_all_services env st).2 =
        [Event.termReq "synapse"] ++ kill_after_timeout env "synapse"
          ++ [Event.stopDone "synapse"]
        ++ [Event.termReq "core"] ++ kill_after_timeout env "core"
          ++ [Event.stopDone "core"]
        ++ [Event.termReq "vault"] ++ kill_after_timeout env "vault"
          ++ [Event.stopDone "vault"]
        ++ [Event.termReq "alden"] ++ kill_after_timeout env "alden"
          ++ [Event.stopDone "alden"]
        ++ rest := by
  simp only [stop_all_services, hflag, Bool.false_eq_true, if_false]
  generalize hG : ({ st with shutdown_in_progress := true } : ManagerState) = st0
  have hs0 : st0.processes.get? "synapse" = some ps := by rw [← hG]; exact hs
  have q1 := gse_processes_of_get env st0 "synapse" ps hs0
  have h2 : (graceful_stop_service_enhanced env st0 "synapse").1.processes.get?
      "core" = some pc := by
    rw [q1, StrMap.get?_erase_ne st0.processes "synapse" "core" (by decide), ← hG]
    exact hc
  have q2 : (graceful_stop_service_enhanced env
      (graceful_stop_service_enhanced env st0 "synapse").1 "core").1.processes =
      (st0.processes.erase "synapse").erase "core" := by
    rw [gse_processes_of_get env _ "core" pc h2, q1]
  have h3 : (graceful_stop_service_enhanced env
      (graceful_stop_service_enhanced env st0 "synapse").1 "core").1.processes.get?
      "vault" = some pv := by
    rw [q2, StrMap.get?_erase_ne _ "core" "vault" (by decide),
        StrMap.get?_erase_ne st0.processes "synapse" "vault" (by decide), ← hG]
    exact hv
  have q3 : (graceful_stop_service_enhanced env
      (graceful_stop_service_enhanced env
        (graceful_stop_service_enhanced env st0 "synapse").1 "core").1 "vault").1.processes =
      ((st0.processes.erase "synapse").erase "core").erase "vault" := by
    rw [gse_processes_of_get env _ "vault" pv h3, q2]
  have h4 : (graceful_stop_service_enhanced env
      (graceful_stop_service_enhanced env
        (graceful_stop_service_enhanced env st0 "synapse").1 "core").1 "vault").1.processes.get?
      "alden" = some pa := by
    rw [q3, StrMap.get?_erase_ne _ "vault" "alden" (by decide),
        StrMap.get?_erase_ne _ "core" "alden" (by decide),
        StrMap.get?_erase_ne st0.processes "synapse" "alden" (by decide), ← hG]
    exact ha
  have q4 : (graceful_stop_service_enhanced env
      (graceful_stop_service_enhanced env
        (graceful_stop_service_enhanced env
          (graceful_stop_service_enhanced env st0 "synapse").1 "core").1
        "vault").1 "alden").1.processes =
      (((st0.processes.erase "synapse").erase "core").erase "vault").erase "alden" := by
    rw [gse_processes_of_get env _ "alden" pa h4, q3]
  refine ⟨((((st0.processes.erase "synapse").erase "core").erase "vault").erase
      "alden").map (fun p => Event.forceKill p.1), ?_, ?_⟩
  · intro e he
    obtain ⟨p, _, hpe⟩ := List.mem_map.mp he
    exact ⟨p.1, hpe.symm⟩
  · rw [gse_trace_of_get env st0 "synapse" ps hs0,
        gse_trace_of_get env _ "core" pc h2,
        gse_trace_of_get env _ "vault" pv h3,
        gse_trace_of_get env _ "alden" pa h4, q4]
    simp [List.append_assoc]

/-- A supervisor state with all four workers registered. -/
def stFour : ManagerState :=
  { processes := [("alden", 1), ("vault", 2), ("core", 3), ("synapse", 4)]
    services := []
    startup_time := 0
    port_profile := .Default
    shutdown_in_progress := false }

theorem stop_all_reverse_dependency_order_witness :
    (stFour.shutdown_in_progress = false ∧
     stFour.processes.get? "synapse" = some 4 ∧
     stFour.processes.get? "core" = some 3 ∧
     stFour.processes.get? "vault" = some 2 ∧
     stFour.processes.get? "alden" = some 1) ∧
    (∃ rest : List Event, (∀ e ∈ rest, ∃ n, e = Event.forceKill n) ∧
      (stop_all_services envW stFour).2 =
        [Event.termReq "synapse"] ++ kill_after_timeout envW "synapse"
          ++ [Event.stopDone "synapse"]
        ++ [Event.termReq "core"] ++ kill_after_timeout envW "core"
          ++ [Event.stopDone "core"]
        ++ [Event.termReq "vault"] ++ kill_after_timeout envW "vault"
          ++ [Event.stopDone "vault"]
        ++ [Event.termReq "alden"] ++ kill_after_timeout envW "alden"
          ++ [Event.stopDone "alden"]
        ++ rest) :=
  ⟨⟨rfl, rfl, rfl, rfl, rfl⟩,
   stop_all_reverse_dependency_order envW stFour 4 3 2 1 rfl rfl rfl rfl rfl⟩

end Hearthlink
